import Mathlib

/-!
# Verification of the audioipc-2 message/handle layer and client stream façade

Shallow embedding of the audioipc-2 repository (files
`src/audioipc/src/lib.rs`, `src/audioipc/src/messages.rs`,
`src/client/src/stream.rs`, `src/server/src/lib.rs`) into Lean 4, together
with theorems checking the natural-language specification against the code.

Conventions:
* Machine integers are modelled as `Nat`/`Int`; where an overflow or a
  lossy cast matters in the source (the `u128 → u64` `try_into`, the
  `isize → usize` cast of `nframes`) the bound/reduction is explicit.
* A Rust panic (`unwrap`, `expect`, `assert!`) is modelled by the
  `Run.panicked` outcome carrying the panic message.
* `cfg!(unix)` / `cfg!(windows)` conditional compilation is modelled by an
  explicit `Platform` argument to the functions whose source carries the
  `cfg`; the repository as given builds for unix (`tokio_uds`,
  `-1isize` sentinel in `server/src/lib.rs`).
-/

namespace AudioIPC

/-- Outcome of running a piece of Rust code that can panic.
`panicked msg` models `panic!`/`unwrap`/`expect`/`assert!` failure. -/
inductive Run (α : Type) where
  | ok (value : α)
  | panicked (msg : String)
deriving DecidableEq

namespace Run

def bind {α β : Type} : Run α → (α → Run β) → Run β
  | .ok a, f => f a
  | .panicked m, _ => .panicked m

instance : Monad Run where
  pure := Run.ok
  bind := Run.bind

@[simp] theorem ok_bind {α β : Type} (a : α) (f : α → Run β) :
    (Run.ok a >>= f) = f a := rfl

@[simp] theorem panicked_bind {α β : Type} (m : String) (f : α → Run β) :
    (Run.panicked m >>= f) = Run.panicked m := rfl

@[simp] theorem pure_eq_ok {α : Type} (a : α) : (pure a : Run α) = Run.ok a := rfl

@[simp] theorem ok_ne_panicked {α : Type} (a : α) (m : String) :
    (Run.ok a : Run α) ≠ Run.panicked m := by
  intro h; cases h

end Run

/-- Panic message of `Option::unwrap` on `None`. -/
def unwrapNoneMsg : String := "called Option::unwrap() on a None value"

/-- Panic message of `Result::unwrap` on `Err` (the `try_into().unwrap()`). -/
def unwrapErrMsg : String := "called Result::unwrap() on an Err value"

/-- Panic message of `assert!(valid_handle(raw))` in `PlatformHandle::new`. -/
def validHandleAssertMsg : String := "assertion failed: valid_handle(raw)"

/-- Panic message of the default `take_platform_handle`'s assert. -/
def defaultTakeAssertMsg : String := "assertion failed: f().is_none()"

/-- `expect` message for a handle-less `StreamCreated` (messages.rs:415). -/
def expectStreamCreatedMsg : String :=
  "platform_handles must be available when processing StreamCreated"

/-- `expect` message for a handle-less `ContextSetupDeviceCollectionCallback`
(messages.rs:423). -/
def expectSetupDevColMsg : String :=
  "platform_handles must be available when processing ContextSetupDeviceCollectionCallback"

/-- `expect` message for a handle-less `SharedMem` (messages.rs:458). -/
def expectSharedMemMsg : String :=
  "platform_handle must be available when processing SharedMem"

/-- Panic message of the input staging-buffer capacity assert (stream.rs:102). -/
def inputCapacityAssertMsg : String :=
  "assertion failed: buf.capacity() >= nframes as usize * input_frame_size"

/-- Panic message of the `assert!(input_frame_size > 0)` (stream.rs:101). -/
def inputFrameSizeAssertMsg : String := "assertion failed: input_frame_size > 0"

/-- The two `cfg!` targets appearing in the source. -/
inductive Platform where
  | unix
  | windows
deriving DecidableEq

/-! ## `src/audioipc/src/lib.rs` -/

/-- `pub const SHM_AREA_SIZE: usize = 2 * 1024 * 1024;` (lib.rs:50) -/
def SHM_AREA_SIZE : Nat := 2 * 1024 * 1024

/-- `PlatformHandleType`: `libc::c_int` on unix, a raw `HANDLE` pointer on
windows (lib.rs:60-62).  Both are modelled as `Int` (the numeric value of
the fd / handle bit pattern); the source is a type alias, mirrored by an
abbreviation. -/
abbrev PlatformHandleType : Type := Int

/-- `INVALID_HANDLE_VALUE` (lib.rs:69,72): `-1` on unix; on windows the
winapi constant is the handle with bit pattern `-1` as well. -/
def INVALID_HANDLE_VALUE : PlatformHandleType := (-1 : Int)

/-- `fn valid_handle` (lib.rs:75-82): on unix `handle >= 0`; on windows
`handle != INVALID_HANDLE_VALUE && handle != null` (null = bit pattern 0). -/
def valid_handle (p : Platform) (handle : PlatformHandleType) : Bool :=
  match p with
  | .unix => (0 : Int) ≤ handle
  | .windows => handle ≠ INVALID_HANDLE_VALUE ∧ handle ≠ (0 : Int)

/-- `pub struct PlatformHandle(PlatformHandleType);` (lib.rs:66). -/
structure PlatformHandle where
  raw : PlatformHandleType
deriving DecidableEq

/-- `PlatformHandle::new` (lib.rs:85-88): `assert!(valid_handle(raw))`,
then wraps the raw handle. -/
def PlatformHandle.new (p : Platform) (raw : PlatformHandleType) : Run PlatformHandle :=
  if valid_handle p raw then .ok ⟨raw⟩
  else .panicked validHandleAssertMsg

/-! ## `src/audioipc/src/messages.rs` — `RemoteHandle` -/

/-- `pub struct RemoteHandle` (messages.rs:182-186). -/
structure RemoteHandle where
  local_handle : Option PlatformHandle
  remote_handle : Option PlatformHandleType
  target_pid : Option Nat
deriving DecidableEq

/-- `RemoteHandle::new_local_with_target` (messages.rs:191-197). -/
def RemoteHandle.new_local_with_target (handle : PlatformHandle) (target_pid : Nat) :
    RemoteHandle :=
  { local_handle := some handle, remote_handle := none, target_pid := some target_pid }

/-- `RemoteHandle::new_local` (messages.rs:199-205); `PlatformHandle::new`
asserts validity of the raw handle. -/
def RemoteHandle.new_local (p : Platform) (handle : PlatformHandleType) : Run RemoteHandle := do
  let ph ← PlatformHandle.new p handle
  pure { local_handle := some ph, remote_handle := none, target_pid := none }

/-- `RemoteHandle::new_remote` (messages.rs:207-213). -/
def RemoteHandle.new_remote (handle : PlatformHandleType) : RemoteHandle :=
  { local_handle := none, remote_handle := some handle, target_pid := none }

/-- One serde wire value, as far as the `RemoteHandle` serializer /
deserializer is concerned.  The serializer only ever emits `i64`; the
visitor only implements `visit_i64`, so every other self-describing wire
type is rejected by serde's default visitor methods. -/
inductive WireValue where
  | i64 (v : Int)
  | u64 (v : Nat)
  | str (s : String)
  | bytes (b : List Nat)
deriving DecidableEq

/-- `impl serde::Serialize for RemoteHandle` (messages.rs:221-229):
serializes as exactly one `i64`, the raw `remote_handle` value or
`INVALID_HANDLE_VALUE` when absent.  (On unix the fd is a `c_int`, so
`as i64` is the exact value; on windows the handle bit pattern likewise.) -/
def RemoteHandle.serialize (h : RemoteHandle) : List WireValue :=
  [WireValue.i64 (h.remote_handle.getD INVALID_HANDLE_VALUE)]

/-- `RemoteHandleVisitor::visit_i64` (messages.rs:239-253): on windows the
value becomes an owned local handle (`PlatformHandle::new` asserts
validity); elsewhere it is kept as a raw remote value. -/
def RemoteHandleVisitor.visit_i64 (p : Platform) (value : Int) : Run RemoteHandle :=
  match p with
  | .windows => do
      let ph ← PlatformHandle.new .windows value
      pure { local_handle := some ph, remote_handle := none, target_pid := none }
  | .unix =>
      pure { local_handle := none, remote_handle := some value, target_pid := none }

/-- `impl serde::Deserialize for RemoteHandle` (messages.rs:256-263):
`deserialize_i64(RemoteHandleVisitor)` — the visitor only implements
`visit_i64`, so any non-`i64` wire value yields a serde error (`none`). -/
def RemoteHandle.deserialize (p : Platform) : WireValue → Run (Option RemoteHandle)
  | .i64 v => do
      let h ← RemoteHandleVisitor.visit_i64 p v
      pure (some h)
  | _ => pure none

/-- The "exactly one form populated" shape of a `RemoteHandle`: either the
local owned form or the raw remote form, never both. -/
def RemoteHandle.exclusiveForm (h : RemoteHandle) : Prop :=
  (h.local_handle.isSome = true ∧ h.remote_handle = none) ∨
    (h.local_handle = none ∧ h.remote_handle.isSome = true)

instance (h : RemoteHandle) : Decidable h.exclusiveForm := by
  unfold RemoteHandle.exclusiveForm; infer_instance

/-! ## `src/audioipc/src/messages.rs` — message payloads and variants -/

/-- `pub struct Device` (messages.rs:19-22); byte vectors as `String`. -/
structure Device where
  output_name : Option String
  input_name : Option String
deriving DecidableEq

/-- `pub struct DeviceInfo` (messages.rs:52-72). -/
structure DeviceInfo where
  devid : Nat
  device_id : Option String
  friendly_name : Option String
  group_id : Option String
  vendor_name : Option String
  device_type : Nat
  state : Nat
  preferred : Nat
  format : Nat
  default_format : Nat
  max_channels : Nat
  default_rate : Nat
  max_rate : Nat
  min_rate : Nat
  latency_lo : Nat
  latency_hi : Nat
deriving DecidableEq

/-- `pub struct StreamParams` (messages.rs:129-135). -/
structure StreamParams where
  format : Nat
  rate : Nat
  channels : Nat
  layout : Nat
  prefs : Nat
deriving DecidableEq

/-- `pub struct StreamCreateParams` (messages.rs:144-147). -/
structure StreamCreateParams where
  input_stream_params : Option StreamParams
  output_stream_params : Option StreamParams
deriving DecidableEq

/-- `pub struct StreamInitParams` (messages.rs:150-157). -/
structure StreamInitParams where
  stream_name : Option String
  input_device : Nat
  input_stream_params : Option StreamParams
  output_device : Nat
  output_stream_params : Option StreamParams
  latency_frames : Nat
deriving DecidableEq

/-- `pub struct StreamCreate` (messages.rs:266-269). -/
structure StreamCreate where
  token : Nat
  platform_handle : RemoteHandle
deriving DecidableEq

/-- `pub struct RegisterDeviceCollectionChanged` (messages.rs:272-274). -/
structure RegisterDeviceCollectionChanged where
  platform_handle : RemoteHandle
deriving DecidableEq

/-- `pub enum ServerMessage` (messages.rs:280-308), client → server. -/
inductive ServerMessage where
  | ClientConnect (pid : Nat)
  | ClientDisconnect
  | ContextGetBackendId
  | ContextGetMaxChannelCount
  | ContextGetMinLatency (params : StreamParams)
  | ContextGetPreferredSampleRate
  | ContextGetDeviceEnumeration (devtype : Nat)
  | ContextSetupDeviceCollectionCallback
  | ContextRegisterDeviceCollectionChanged (devtype : Nat) (enable : Bool)
  | StreamCreate (params : StreamCreateParams)
  | StreamInit (token : Nat) (params : StreamInitParams)
  | StreamDestroy (token : Nat)
  | StreamStart (token : Nat)
  | StreamStop (token : Nat)
  | StreamGetPosition (token : Nat)
  | StreamGetLatency (token : Nat)
  | StreamGetInputLatency (token : Nat)
  | StreamSetVolume (token : Nat) (volume : Int)
  | StreamSetName (token : Nat) (name : String)
  | StreamGetCurrentDevice (token : Nat)
  | StreamRegisterDeviceChangeCallback (token : Nat) (enable : Bool)
  | PromoteThreadToRealTime (info : List Nat)
deriving DecidableEq

/-- `pub enum ClientMessage` (messages.rs:313-343), server → client. -/
inductive ClientMessage where
  | ClientConnected
  | ClientDisconnected
  | ContextBackendId (id : String)
  | ContextMaxChannelCount (count : Nat)
  | ContextMinLatency (latency : Nat)
  | ContextPreferredSampleRate (rate : Nat)
  | ContextEnumeratedDevices (devices : List DeviceInfo)
  | ContextSetupDeviceCollectionCallback (data : RegisterDeviceCollectionChanged)
  | ContextRegisteredDeviceCollectionChanged
  | StreamCreated (data : StreamCreate)
  | StreamInitialized
  | StreamDestroyed
  | StreamStarted
  | StreamStopped
  | StreamPosition (pos : Nat) (timestamp : Nat)
  | StreamLatency (latency : Nat)
  | StreamInputLatency (latency : Nat)
  | StreamVolumeSet
  | StreamNameSet
  | StreamCurrentDevice (device : Device)
  | StreamRegisterDeviceChangeCallback
  | ThreadPromoted
  | Error (code : Int)
deriving DecidableEq

/-- `pub enum CallbackReq` (messages.rs:346-355).  `nframes` is `isize`. -/
inductive CallbackReq where
  | Data (nframes : Int) (input_frame_size : Nat) (output_frame_size : Nat)
  | State (state : Nat)
  | DeviceChange
  | SharedMem (handle : RemoteHandle)
deriving DecidableEq

/-- `pub enum CallbackResp` (messages.rs:358-363). -/
inductive CallbackResp where
  | Data (nframes : Int)
  | State
  | DeviceChange
  | SharedMem
deriving DecidableEq

/-- `pub enum DeviceCollectionReq` (messages.rs:366-368). -/
inductive DeviceCollectionReq where
  | DeviceChange (devtype : Nat)
deriving DecidableEq

/-- `pub enum DeviceCollectionResp` (messages.rs:371-373). -/
inductive DeviceCollectionResp where
  | DeviceChange
deriving DecidableEq

/-! ### Resource handles carried per message variant

Each counting function returns, per variant, the number of `RemoteHandle`
fields reachable in that variant's payload (read off the payload structs
above). -/

/-- `ServerMessage` payloads contain no `RemoteHandle` field. -/
def ServerMessage.handleCount : ServerMessage → Nat := fun _ => 0

/-- `RemoteHandle` fields per `ClientMessage` variant: `StreamCreated`
carries one (inside `StreamCreate`), `ContextSetupDeviceCollectionCallback`
carries one (inside `RegisterDeviceCollectionChanged`), no other payload
struct has a `RemoteHandle` field. -/
def ClientMessage.handleCount : ClientMessage → Nat
  | .StreamCreated _ => 1
  | .ContextSetupDeviceCollectionCallback _ => 1
  | _ => 0

/-- `RemoteHandle` fields per `CallbackReq` variant: only `SharedMem`. -/
def CallbackReq.handleCount : CallbackReq → Nat
  | .SharedMem _ => 1
  | _ => 0

/-- `CallbackResp` payloads contain no `RemoteHandle` field. -/
def CallbackResp.handleCount : CallbackResp → Nat := fun _ => 0

/-! ### `trait AssocRawPlatformHandle` (messages.rs:375-386)

`take_platform_handle(&mut self, f)` installs into the message the handle
that accompanied the received frame.  The accompanying handle (`f()`'s
result) is modelled as an `Option PlatformHandleType` argument; the
functions return the updated message.  `let owned = cfg!(unix)` is the
`Platform` argument. -/

/-- Default `take_platform_handle` (messages.rs:380-385):
`assert!(f().is_none())` — panics when a handle accompanies a message of a
type that declares no handle-carrying variant.  Used by `ServerMessage`,
`DeviceCollectionReq`, `DeviceCollectionResp` and `CallbackResp`
(messages.rs:388,435,436,468). -/
def defaultTakePlatformHandle {α : Type} (m : α) (supplied : Option PlatformHandleType) :
    Run α :=
  match supplied with
  | none => .ok m
  | some _ => .panicked defaultTakeAssertMsg

/-- `impl AssocRawPlatformHandle for ServerMessage {}` (messages.rs:388):
inherits the default `take_platform_handle`. -/
def ServerMessage.take_platform_handle (m : ServerMessage)
    (supplied : Option PlatformHandleType) : Run ServerMessage :=
  defaultTakePlatformHandle m supplied

/-- `ClientMessage::take_platform_handle` (messages.rs:407-432):
`StreamCreated` and `ContextSetupDeviceCollectionCallback` `expect` the
accompanying handle and install it (`new_local` when owned/unix,
`new_remote` otherwise); every other variant hits the `_ => {}` arm, which
does nothing — in particular it never evaluates `f()` and never asserts. -/
def ClientMessage.take_platform_handle (p : Platform) (m : ClientMessage)
    (supplied : Option PlatformHandleType) : Run ClientMessage :=
  match m with
  | .StreamCreated data =>
      match supplied with
      | none => .panicked expectStreamCreatedMsg
      | some h => do
          let rh ← if p = .unix then RemoteHandle.new_local p h
                   else pure (RemoteHandle.new_remote h)
          pure (.StreamCreated { data with platform_handle := rh })
  | .ContextSetupDeviceCollectionCallback data =>
      match supplied with
      | none =>
          .panicked expectSetupDevColMsg
      | some h => do
          let rh ← if p = .unix then RemoteHandle.new_local p h
                   else pure (RemoteHandle.new_remote h)
          pure (.ContextSetupDeviceCollectionCallback { data with platform_handle := rh })
  | other => .ok other

/-- `CallbackReq::take_platform_handle` (messages.rs:452-465): only the
`SharedMem` variant `expect`s and installs the accompanying handle; the
`if let` falls through silently for every other variant. -/
def CallbackReq.take_platform_handle (p : Platform) (m : CallbackReq)
    (supplied : Option PlatformHandleType) : Run CallbackReq :=
  match m with
  | .SharedMem _ =>
      match supplied with
      | none => .panicked expectSharedMemMsg
      | some h => do
          let rh ← if p = .unix then RemoteHandle.new_local p h
                   else pure (RemoteHandle.new_remote h)
          pure (.SharedMem rh)
  | other => .ok other

/-- `impl AssocRawPlatformHandle for CallbackResp {}` (messages.rs:468). -/
def CallbackResp.take_platform_handle (m : CallbackResp)
    (supplied : Option PlatformHandleType) : Run CallbackResp :=
  defaultTakePlatformHandle m supplied

/-! ## `audioipc::shm` — shared-memory view

`src/audioipc/src/shm.rs` is not among the given sources; only its callers
(`src/client/src/stream.rs`) are.  The view is therefore modelled from the
spec. -/

/-- Modelled from the spec: `audioipc::shm::SharedMem` / its
`unsafe_view()` (shm.rs, absent from the sources).  Spec §3
SharedMemoryRegion / §4.4: "a fixed-size (2 MiB) memory mapping",
"partitioned at the call site into … sub-range[s] sized by
`frame_count × frame_size`"; a slice request is served iff it fits in the
mapping, since exceeding the region "must fail loudly rather than silently
truncate".  Only the mapping's size is relevant to the claims. -/
structure SharedMemView where
  size : Nat
deriving DecidableEq

/-- Modelled from the spec: `shm.get_slice(len)` — a shared byte range of
`len` bytes from the mapping, available iff it lies within the fixed-size
region (spec §4.4); the caller in stream.rs `unwrap`s the result. -/
def SharedMemView.get_slice (v : SharedMemView) (len : Nat) : Option Nat :=
  if len ≤ v.size then some len else none

/-- Modelled from the spec: `shm.get_mut_slice(len)`, the writable
counterpart of `get_slice` over the same fixed-size region. -/
def SharedMemView.get_mut_slice (v : SharedMemView) (len : Nat) : Option Nat :=
  if len ≤ v.size then some len else none

/-- Modelled from the spec: `SharedMem::from(handle, SHM_AREA_SIZE)`
(shm.rs, absent from the sources) — maps the received handle as a region
of the given size (spec §4.4: handle "transmitted once, early, via a
dedicated control request"). -/
def mapSharedMem (size : Nat) : SharedMemView := { size := size }

/-! ## `src/client/src/stream.rs` — `CallbackServer` -/

/-- `struct CallbackServer` (stream.rs:62-72).  The `input` staging
`Vec<u8>` is modelled by its capacity; the cubeb callbacks by the value
the data callback returns (frames produced) — `Option` mirrors the
nullable C function pointers.  `cpu_pool`, `user_ptr` and the shutdown
sender do not affect the processed responses. -/
structure CallbackServer where
  shm : Option SharedMemView
  input : Option Nat
  data_cb : Option (Nat → Int)
  state_cb : Option Unit
  device_change_cb : Option Unit

/-- `nframes as usize`: two's-complement cast of an `isize` to `usize`. -/
def usize_of_isize (i : Int) : Nat := (i % (2 : Int) ^ 64).toNat

/-- `impl rpc::Server for CallbackServer`, `fn process` (stream.rs:83-191).
The body of the closure handed to `cpu_pool.spawn_fn` is inlined in
sequence; a panic inside it is a loud failure of the `Data` handler.
Evaluation order follows the source: `self.shm…unwrap()` (line 98), the
input capacity asserts (lines 101-102), `self.data_cb.unwrap()` (line
108), the input-slice unwrap (line 119), the output-slice unwrap (lines
127-131), then the user callback producing the `Data` response. -/
def CallbackServer.process (s : CallbackServer) (req : CallbackReq) :
    Run (CallbackServer × CallbackResp) :=
  match req with
  | .Data nframes input_frame_size output_frame_size =>
      let nf : Nat := usize_of_isize nframes
      match s.shm with
      | none => .panicked unwrapNoneMsg
      | some shm => do
          let hasInput ←
            match s.input with
            | some cap =>
                if input_frame_size > 0 then
                  if cap ≥ nf * input_frame_size then (pure true : Run Bool)
                  else .panicked inputCapacityAssertMsg
                else .panicked inputFrameSizeAssertMsg
            | none => pure false
          match s.data_cb with
          | none => .panicked unwrapNoneMsg
          | some cb => do
              if hasInput then
                match shm.get_slice (nf * input_frame_size) with
                | some _ => pure ()
                | none => .panicked unwrapNoneMsg
              if output_frame_size ≠ 0 then
                match shm.get_mut_slice (nf * output_frame_size) with
                | some _ => pure ()
                | none => .panicked unwrapNoneMsg
              pure (s, .Data (cb nf))
  | .State _ =>
      match s.state_cb with
      | none => .panicked unwrapNoneMsg
      | some _ => .ok (s, .State)
  | .DeviceChange =>
      -- A null registered callback is only warned about, never a failure.
      .ok (s, .DeviceChange)
  | .SharedMem handle =>
      match handle.local_handle with
      | none => .panicked unwrapNoneMsg
      | some _ => .ok ({ s with shm := some (mapSharedMem SHM_AREA_SIZE) }, .SharedMem)

/-! ## `src/client/src/stream.rs` — `ClientStream` façade -/

/-- The fields of `struct ClientStream` (stream.rs:46-60) that the claims
touch.  `cached_position` pairs a `u64` position with an `Instant`,
modelled as nanoseconds of a monotonic clock; `cached_calls` is the
`(cache hits, total calls)` pair of `u64` counters. -/
structure ClientStream where
  token : Nat
  stream_output_rate : Option Nat
  cached_position : Option (Nat × Nat)
  cached_calls : Nat × Nat
deriving DecidableEq

/-- `Duration::from_millis(10)` (stream.rs:317), in nanoseconds. -/
def positionCacheWindowNs : Nat := 10 * 1000 * 1000

/-- `2^64`: the first value not representable in `u64`; the
`current_pos.try_into().unwrap()` (stream.rs:325) panics at and above it. -/
def u64Modulus : Nat := 2 ^ 64

/-- The extrapolated position of the cache-hit path (stream.rs:321-323):
`last_pos as u128 + (elapsed.as_millis() * rate as u128 / 1000)`, with
`as_millis` truncating the elapsed nanoseconds.  Computed in `u128`, which
cannot overflow for `u64` positions and `u32` rates. -/
def extrapolatedPosition (last_pos last_time rate now : Nat) : Nat :=
  last_pos + (now - last_time) / 1000000 * rate / 1000

/-- Result of `ClientStream::position`: `Ok(pos)` with the mutated stream
state, the propagated RPC error (`?`, stream.rs:329) with the stream state
as left behind, or a panic. -/
inductive PositionOutcome where
  | ok (pos : Nat) (s : ClientStream)
  | err (s : ClientStream)
  | panicked (msg : String)
deriving DecidableEq

/-- The full-round-trip tail of `ClientStream::position`
(stream.rs:328-334): the `StreamGetPosition` RPC's outcome is the `rpc`
argument; on error the `?` returns early with `self` untouched, on success
the cached pair is replaced by `(current_pos, Instant::now())` and the
call counters are committed. -/
def ClientStream.positionRoundTrip (s : ClientStream) (calls : Nat × Nat) (now : Nat)
    (rpc : Except Unit Nat) : PositionOutcome :=
  match rpc with
  | .error _ => .err s
  | .ok current_pos =>
      .ok current_pos
        { s with cached_position := some (current_pos, now), cached_calls := calls }

/-- `ClientStream::position` (stream.rs:311-335).  `now` is the value of
the monotonic clock during the call (`last_time.elapsed()` =
`now - last_time`; the two `elapsed()` reads inside one call are modelled
as observing the same instant); `rpc` is the outcome the
`StreamGetPosition` round trip would have.  The local `calls` copy increments the total counter
(`calls.1 += 1`); within the 10 ms window the hit counter is also
incremented, the extrapolated position is computed and `try_into().unwrap()`
panics unless it fits in `u64`; otherwise the round-trip tail runs. -/
def ClientStream.position (s : ClientStream) (now : Nat) (rpc : Except Unit Nat) :
    PositionOutcome :=
  let calls := (s.cached_calls.fst, s.cached_calls.snd + 1)
  match s.cached_position with
  | some (last_pos, last_time) =>
      if now - last_time < positionCacheWindowNs then
        let calls := (calls.fst + 1, calls.snd)
        match s.stream_output_rate with
        | none => .panicked unwrapNoneMsg
        | some rate =>
            let current_pos := extrapolatedPosition last_pos last_time rate now
            if current_pos < u64Modulus then
              .ok current_pos { s with cached_calls := calls }
            else .panicked unwrapErrMsg
      else s.positionRoundTrip calls now rpc
  | none => s.positionRoundTrip calls now rpc

/-- `ClientStream::init` (stream.rs:195-275), restricted to the state it
assembles: `stream_output_rate` is the rate of the output params if any
(stream.rs:205); the input staging buffer is allocated with capacity
`SHM_AREA_SIZE` iff input params are present (stream.rs:223-227); the
`CallbackServer` starts with `shm: None` (stream.rs:239); the stream
starts with an empty position cache and zeroed counters
(stream.rs:271-272).  The RPC round trips, transports and worker pool are
external to the state. -/
def ClientStream.init (token : Nat) (init_params : StreamInitParams)
    (data_callback : Option (Nat → Int)) (state_callback : Option Unit) :
    ClientStream × CallbackServer :=
  ({ token := token
     stream_output_rate := init_params.output_stream_params.map (fun p => p.rate)
     cached_position := none
     cached_calls := (0, 0) },
   { shm := none
     input := if init_params.input_stream_params.isSome then some SHM_AREA_SIZE else none
     data_cb := data_callback
     state_cb := state_callback
     device_change_cb := none })

/-- A sequence of `position` calls at the given clock values on one
stream, all against the same `StreamGetPosition` oracle; `none` when any
call fails or panics.  Used to state the position-cache bound over a call
sequence. -/
def positionSeq (s : ClientStream) (times : List Nat) (rpc : Except Unit Nat) :
    Option (List Nat × ClientStream) :=
  match times with
  | [] => some ([], s)
  | n :: rest =>
      match s.position n rpc with
      | .ok v s' =>
          match positionSeq s' rest rpc with
          | some (vs, sf) => some (v :: vs, sf)
          | none => none
      | _ => none

/-! ## Teardown ordering (`impl Drop for ClientStream`, stream.rs:278-296)

The stream-destroy path is concurrent: the façade's destructor runs on the
caller thread while the `CallbackServer` lives on the callback reactor.
It is modelled as a trace of observable events; `ValidTeardownTrace`
states exactly the ordering facts the code establishes, each field
justified by a specific mechanism in the source. -/

/-- Observable events of one stream's teardown. -/
inductive TeardownEvent where
  | destroySent
  | destroyAcked
  | callbackInvoked
  | serverDropped
  | shutdownObserved
  | dropReturned
deriving DecidableEq

/-- The ordering facts the source establishes for any execution:

* `ack_after_send`: `send_recv!(rpc, StreamDestroy(..) => StreamDestroyed)`
  (stream.rs:286) receives the response only after sending the request.
* `shutdown_after_ack`: `self.shutdown_rx.recv()` (stream.rs:293) runs
  after the `send_recv!` on line 286 completes (sequential drop body).
* `shutdown_after_server_drop`: `shutdown_rx.recv()` can only return once
  `_shutdown_tx` is dropped: the sender is owned by `CallbackServer`
  (stream.rs:71), is never used to send, and `mpsc::Receiver::recv`
  returns (with `Err`) only when all senders are gone — i.e. only after
  the `CallbackServer` value is dropped (stream.rs:288-293 comment).
* `return_after_shutdown`: the drop body returns only after the `recv` on
  line 293 returns (sequential drop body).
* `no_dispatch_after_server_drop`: `CallbackServer::process`
  (stream.rs:83) is invoked by the RPC engine on the live server value; no
  dispatch starts after the server has been dropped. -/
def ValidTeardownTrace (tr : List TeardownEvent) : Prop :=
  (∀ j : Fin tr.length, tr.get j = .destroyAcked →
      ∃ i : Fin tr.length, i.val < j.val ∧ tr.get i = .destroySent) ∧
  (∀ j : Fin tr.length, tr.get j = .shutdownObserved →
      ∃ i : Fin tr.length, i.val < j.val ∧ tr.get i = .destroyAcked) ∧
  (∀ j : Fin tr.length, tr.get j = .shutdownObserved →
      ∃ i : Fin tr.length, i.val < j.val ∧ tr.get i = .serverDropped) ∧
  (∀ j : Fin tr.length, tr.get j = .dropReturned →
      ∃ i : Fin tr.length, i.val < j.val ∧ tr.get i = .shutdownObserved) ∧
  (∀ i j : Fin tr.length, tr.get i = .callbackInvoked → tr.get j = .serverDropped →
      i.val < j.val)

instance (tr : List TeardownEvent) : Decidable (ValidTeardownTrace tr) := by
  unfold ValidTeardownTrace; infer_instance

/-! # Theorems -/

/-- C2: every `RemoteHandle` produced by `new_local_with_target`,
`new_local`, `new_remote` or by deserialization has exactly one of its two
forms populated (`local_handle` `Some` with `remote_handle` `None`, or the
reverse — never both `Some`), and every message variant of every message
enum carries at most one resource handle. -/
theorem remoteHandle_exclusive_form_and_single_handle_per_message :
    (∀ (ph : PlatformHandle) (pid : Nat),
        (RemoteHandle.new_local_with_target ph pid).exclusiveForm) ∧
    (∀ (p : Platform) (h : PlatformHandleType) (rh : RemoteHandle),
        RemoteHandle.new_local p h = .ok rh → rh.exclusiveForm) ∧
    (∀ h : PlatformHandleType, (RemoteHandle.new_remote h).exclusiveForm) ∧
    (∀ (p : Platform) (w : WireValue) (rh : RemoteHandle),
        RemoteHandle.deserialize p w = .ok (some rh) → rh.exclusiveForm) ∧
    (∀ m : ServerMessage, m.handleCount ≤ 1) ∧
    (∀ m : ClientMessage, m.handleCount ≤ 1) ∧
    (∀ m : CallbackReq, m.handleCount ≤ 1) ∧
    (∀ m : CallbackResp, m.handleCount ≤ 1) := by
  refine ⟨?_, ?_, ?_, ?_, ?_, ?_, ?_, ?_⟩
  · intro ph pid
    left; exact ⟨rfl, rfl⟩
  · intro p h rh hok
    unfold RemoteHandle.new_local PlatformHandle.new at hok
    by_cases hv : valid_handle p h = true
    · rw [if_pos hv] at hok
      simp only [Run.ok_bind, Run.pure_eq_ok, Run.ok.injEq] at hok
      subst hok; left; exact ⟨rfl, rfl⟩
    · rw [if_neg hv] at hok
      simp only [Run.panicked_bind] at hok
      cases hok
  · intro h
    right; exact ⟨rfl, rfl⟩
  · intro p w rh hok
    cases w with
    | i64 v =>
        cases p with
        | unix =>
            simp only [RemoteHandle.deserialize, RemoteHandleVisitor.visit_i64,
              Run.pure_eq_ok, Run.ok_bind, Run.ok.injEq, Option.some.injEq] at hok
            subst hok; right; exact ⟨rfl, rfl⟩
        | windows =>
            by_cases hv : valid_handle .windows v = true
            · simp only [RemoteHandle.deserialize, RemoteHandleVisitor.visit_i64,
                PlatformHandle.new, hv, if_true, Run.ok_bind, Run.pure_eq_ok,
                Run.ok.injEq, Option.some.injEq] at hok
              subst hok; left; exact ⟨rfl, rfl⟩
            · simp [RemoteHandle.deserialize, RemoteHandleVisitor.visit_i64,
                PlatformHandle.new, hv] at hok
    | u64 v => simp [RemoteHandle.deserialize] at hok
    | str s => simp [RemoteHandle.deserialize] at hok
    | bytes b => simp [RemoteHandle.deserialize] at hok
  · intro m; cases m <;> simp [ServerMessage.handleCount]
  · intro m; cases m <;> simp [ClientMessage.handleCount]
  · intro m; cases m <;> simp [CallbackReq.handleCount]
  · intro m; cases m <;> simp [CallbackResp.handleCount]

/-- C2 witness: the exclusive-form facts evaluated at concrete handles
(fd 3, pid 42, wire value 7) and a concrete message. -/
theorem remoteHandle_exclusive_form_witness :
    (RemoteHandle.new_local_with_target ⟨3⟩ 42).exclusiveForm ∧
    RemoteHandle.exclusiveForm
      { local_handle := some ⟨3⟩, remote_handle := none, target_pid := none } ∧
    (RemoteHandle.new_remote 5).exclusiveForm ∧
    RemoteHandle.exclusiveForm
      { local_handle := none, remote_handle := some 7, target_pid := none } ∧
    ClientMessage.handleCount (.StreamCreated
      { token := 1,
        platform_handle :=
          { local_handle := some ⟨3⟩, remote_handle := none, target_pid := none } }) ≤ 1 :=
  ⟨remoteHandle_exclusive_form_and_single_handle_per_message.1 ⟨3⟩ 42,
   remoteHandle_exclusive_form_and_single_handle_per_message.2.1 .unix 3
     { local_handle := some ⟨3⟩, remote_handle := none, target_pid := none } (by decide),
   remoteHandle_exclusive_form_and_single_handle_per_message.2.2.1 5,
   remoteHandle_exclusive_form_and_single_handle_per_message.2.2.2.1 .unix (.i64 7)
     { local_handle := none, remote_handle := some 7, target_pid := none } (by decide),
   remoteHandle_exclusive_form_and_single_handle_per_message.2.2.2.2.2.1 _⟩

/-- C8: serialization of a `RemoteHandle` writes exactly one 64-bit signed
integer — the raw remote handle when present, `INVALID_HANDLE_VALUE`
("no handle") when absent; deserialization accepts exactly an `i64`
(reconstructing a `RemoteHandle` from it) and rejects every other wire
type. -/
theorem remoteHandle_wire_format :
    (∀ h : RemoteHandle, h.serialize.length = 1) ∧
    (∀ (h : RemoteHandle) (v : PlatformHandleType), h.remote_handle = some v →
        h.serialize = [WireValue.i64 v]) ∧
    (∀ h : RemoteHandle, h.remote_handle = none →
        h.serialize = [WireValue.i64 INVALID_HANDLE_VALUE]) ∧
    (∀ v : Int,
        RemoteHandle.deserialize .unix (.i64 v) =
          .ok (some { local_handle := none, remote_handle := some v, target_pid := none })) ∧
    (∀ (p : Platform) (w : WireValue), (∀ v, w ≠ .i64 v) →
        RemoteHandle.deserialize p w = .ok none) := by
  refine ⟨?_, ?_, ?_, ?_, ?_⟩
  · intro h; rfl
  · intro h v hv
    simp [RemoteHandle.serialize, hv]
  · intro h hv
    simp [RemoteHandle.serialize, hv]
  · intro v; rfl
  · intro p w hw
    cases w with
    | i64 v => exact absurd rfl (hw v)
    | u64 v => rfl
    | str s => rfl
    | bytes b => rfl

/-- C8 witness: the wire format evaluated at a handle holding remote fd 9,
a handle holding no remote value, and at concrete wire values. -/
theorem remoteHandle_wire_format_witness :
    RemoteHandle.serialize
        { local_handle := none, remote_handle := some 9, target_pid := none } =
      [WireValue.i64 9] ∧
    RemoteHandle.serialize
        { local_handle := some ⟨3⟩, remote_handle := none, target_pid := some 42 } =
      [WireValue.i64 INVALID_HANDLE_VALUE] ∧
    RemoteHandle.deserialize .unix (.i64 9) =
      .ok (some { local_handle := none, remote_handle := some 9, target_pid := none }) ∧
    RemoteHandle.deserialize .unix (.bytes [0]) = .ok none :=
  ⟨remoteHandle_wire_format.2.1
     { local_handle := none, remote_handle := some 9, target_pid := none } 9 rfl,
   remoteHandle_wire_format.2.2.1
     { local_handle := some ⟨3⟩, remote_handle := none, target_pid := some 42 } rfl,
   remoteHandle_wire_format.2.2.2.1 9,
   remoteHandle_wire_format.2.2.2.2 .unix (.bytes [0]) (fun v h => by cases h)⟩

/-- C3 counterexample: a non-carrying message variant
(`ClientMessage::StreamInitialized`) arriving with an accompanying handle
(fd 3) is NOT failed fast: `ClientMessage`'s overriding
`take_platform_handle` hits the `_ => {}` arm (messages.rs:430), never
runs the default's `assert!(f().is_none())`, and succeeds silently. -/
theorem clientMessage_noncarrying_ignores_handle_counterexample :
    ClientMessage.take_platform_handle .unix .StreamInitialized (some 3) =
      .ok .StreamInitialized := rfl

/-- C3 amended: a handle-carrying variant (`StreamCreated`,
`ContextSetupDeviceCollectionCallback`, `SharedMem`) received without an
accompanying handle panics via `expect`; a message of a type that inherits
the DEFAULT `take_platform_handle` (`ServerMessage`, `CallbackResp`)
panics on an unexpected accompanying handle; but the non-carrying variants
of `ClientMessage` and `CallbackReq` — whose impls override the default —
silently ignore an accompanying handle. -/
theorem take_platform_handle_failfast_amended :
    (∀ (p : Platform) (d : StreamCreate),
        ClientMessage.take_platform_handle p (.StreamCreated d) none =
          .panicked expectStreamCreatedMsg) ∧
    (∀ (p : Platform) (d : RegisterDeviceCollectionChanged),
        ClientMessage.take_platform_handle p (.ContextSetupDeviceCollectionCallback d) none =
          .panicked expectSetupDevColMsg) ∧
    (∀ (p : Platform) (h : RemoteHandle),
        CallbackReq.take_platform_handle p (.SharedMem h) none =
          .panicked expectSharedMemMsg) ∧
    (∀ (m : ServerMessage) (h : PlatformHandleType),
        ServerMessage.take_platform_handle m (some h) = .panicked defaultTakeAssertMsg) ∧
    (∀ (m : CallbackResp) (h : PlatformHandleType),
        CallbackResp.take_platform_handle m (some h) = .panicked defaultTakeAssertMsg) ∧
    (∀ (p : Platform) (m : ClientMessage) (h : PlatformHandleType), m.handleCount = 0 →
        ClientMessage.take_platform_handle p m (some h) = .ok m) ∧
    (∀ (p : Platform) (m : CallbackReq) (h : PlatformHandleType), m.handleCount = 0 →
        CallbackReq.take_platform_handle p m (some h) = .ok m) := by
  refine ⟨?_, ?_, ?_, ?_, ?_, ?_, ?_⟩
  · intro p d; rfl
  · intro p d; rfl
  · intro p h; rfl
  · intro m h; rfl
  · intro m h; rfl
  · intro p m h hc
    cases m <;> first
      | rfl
      | simp [ClientMessage.handleCount] at hc
  · intro p m h hc
    cases m <;> first
      | rfl
      | simp [CallbackReq.handleCount] at hc

/-- C3 witness: the amended behavior at concrete messages — a
`StreamCreated` without a handle panics, a `ServerMessage` with an
unexpected handle panics, `StreamStarted` with a handle is ignored. -/
theorem take_platform_handle_failfast_witness :
    ClientMessage.take_platform_handle .unix
        (.StreamCreated { token := 1, platform_handle := RemoteHandle.new_remote 4 }) none =
      .panicked expectStreamCreatedMsg ∧
    ServerMessage.take_platform_handle .ClientDisconnect (some 3) =
      .panicked defaultTakeAssertMsg ∧
    ClientMessage.take_platform_handle .unix .StreamStarted (some 3) = .ok .StreamStarted :=
  ⟨take_platform_handle_failfast_amended.1 .unix
     { token := 1, platform_handle := RemoteHandle.new_remote 4 },
   take_platform_handle_failfast_amended.2.2.2.1 .ClientDisconnect 3,
   take_platform_handle_failfast_amended.2.2.2.2.2.1 .unix .StreamStarted 3 rfl⟩

/-- C10: processing a `Data` request while `shm` is still `None` panics
(the `unwrap` at stream.rs:98) rather than returning an error response,
and processing a `SharedMem` request installs the shared-memory mapping. -/
theorem data_before_sharedmem_panics :
    (∀ (s : CallbackServer) (nframes : Int) (ifs ofs : Nat), s.shm = none →
        s.process (.Data nframes ifs ofs) = .panicked unwrapNoneMsg) ∧
    (∀ (s : CallbackServer) (h : RemoteHandle) (ph : PlatformHandle),
        h.local_handle = some ph →
        s.process (.SharedMem h) =
          .ok ({ s with shm := some (mapSharedMem SHM_AREA_SIZE) }, .SharedMem)) := by
  constructor
  · intro s nframes ifs ofs hshm
    simp [CallbackServer.process, hshm]
  · intro s h ph hlh
    simp [CallbackServer.process, hlh]

/-- C10 witness: a fresh `CallbackServer` (as built by `ClientStream::init`,
`shm: None`) panics on a concrete `Data` request; after a `SharedMem`
request carrying fd 3 the mapping is installed. -/
theorem data_before_sharedmem_panics_witness :
    CallbackServer.process
        { shm := none, input := none, data_cb := some (fun n => (n : Int)),
          state_cb := some (), device_change_cb := none }
        (.Data 480 0 4) = .panicked unwrapNoneMsg ∧
    CallbackServer.process
        { shm := none, input := none, data_cb := some (fun n => (n : Int)),
          state_cb := some (), device_change_cb := none }
        (.SharedMem { local_handle := some ⟨3⟩, remote_handle := none, target_pid := none }) =
      .ok ({ shm := some (mapSharedMem SHM_AREA_SIZE), input := none,
             data_cb := some (fun n => (n : Int)), state_cb := some (),
             device_change_cb := none }, .SharedMem) :=
  ⟨data_before_sharedmem_panics.1
     { shm := none, input := none, data_cb := some (fun n => (n : Int)),
       state_cb := some (), device_change_cb := none } 480 0 4 rfl,
   data_before_sharedmem_panics.2
     { shm := none, input := none, data_cb := some (fun n => (n : Int)),
       state_cb := some (), device_change_cb := none }
     { local_handle := some ⟨3⟩, remote_handle := none, target_pid := none } ⟨3⟩ rfl⟩

/-- C9: a stream initialized with `output_stream_params = None` (an
input-only stream) has no `stream_output_rate`; a `position()` call that
finds a cached pair younger than 10 ms then panics (the
`stream_output_rate.unwrap()` at stream.rs:322) instead of returning a
value, while the full-round-trip path succeeds without the output rate. -/
theorem input_only_stream_position_panics :
    (∀ (token : Nat) (ip : StreamInitParams) (dcb : Option (Nat → Int)) (scb : Option Unit),
        ip.output_stream_params = none →
        (ClientStream.init token ip dcb scb).fst.stream_output_rate = none) ∧
    (∀ (s : ClientStream) (p t now : Nat) (rpc : Except Unit Nat),
        s.stream_output_rate = none → s.cached_position = some (p, t) →
        now - t < positionCacheWindowNs →
        s.position now rpc = .panicked unwrapNoneMsg) ∧
    (∀ (s : ClientStream) (p t now pos : Nat),
        s.stream_output_rate = none → s.cached_position = some (p, t) →
        ¬ now - t < positionCacheWindowNs →
        s.position now (Except.ok pos) =
          .ok pos { s with cached_position := some (pos, now)
                           cached_calls := (s.cached_calls.fst, s.cached_calls.snd + 1) }) := by
  refine ⟨?_, ?_, ?_⟩
  · intro token ip dcb scb hout
    simp [ClientStream.init, hout]
  · intro s p t now rpc hrate hcache hfresh
    simp [ClientStream.position, hcache, hrate, hfresh]
  · intro s p t now pos hrate hcache hstale
    simp [ClientStream.position, ClientStream.positionRoundTrip, hcache, hstale]

/-- C9 witness: an input-only stream (no output params) yields
`stream_output_rate = none`; with position 100 cached at t = 0 ns, a call
at 5 ms panics, while a call at 20 ms round-trips successfully. -/
theorem input_only_stream_position_panics_witness :
    (ClientStream.init 1
        { stream_name := none, input_device := 0,
          input_stream_params :=
            some { format := 1, rate := 48000, channels := 1, layout := 0, prefs := 0 },
          output_device := 0, output_stream_params := none,
          latency_frames := 128 } none none).fst.stream_output_rate = none ∧
    ClientStream.position
        { token := 1, stream_output_rate := none, cached_position := some (100, 0),
          cached_calls := (0, 0) } 5000000 (Except.error ()) =
      .panicked unwrapNoneMsg ∧
    ClientStream.position
        { token := 1, stream_output_rate := none, cached_position := some (100, 0),
          cached_calls := (0, 0) } 20000000 (Except.ok 7) =
      .ok 7 { token := 1, stream_output_rate := none,
              cached_position := some (7, 20000000), cached_calls := (0, 1) } :=
  ⟨input_only_stream_position_panics.1 1
     { stream_name := none, input_device := 0,
       input_stream_params :=
         some { format := 1, rate := 48000, channels := 1, layout := 0, prefs := 0 },
       output_device := 0, output_stream_params := none, latency_frames := 128 }
     none none rfl,
   input_only_stream_position_panics.2.1
     { token := 1, stream_output_rate := none, cached_position := some (100, 0),
       cached_calls := (0, 0) } 100 0 5000000 (Except.error ()) rfl rfl (by decide),
   input_only_stream_position_panics.2.2
     { token := 1, stream_output_rate := none, cached_position := some (100, 0),
       cached_calls := (0, 0) } 100 0 20000000 7 rfl rfl (by decide)⟩

/-- C7 counterexample: a `position()` call whose `StreamGetPosition` round
trip fails does NOT increment the total-call counter: `calls.1 += 1` only
mutates the local copy (stream.rs:313-314) and the write-back
`self.cached_calls = calls` (stream.rs:333) is skipped by the early `?`
return (stream.rs:329), so the stream comes out with its counter still 0. -/
theorem position_total_counter_error_counterexample :
    ClientStream.position
        { token := 1, stream_output_rate := some 48000, cached_position := none,
          cached_calls := (0, 0) } 0 (Except.error ()) =
      .err { token := 1, stream_output_rate := some 48000, cached_position := none,
             cached_calls := (0, 0) } ∧
    ({ token := 1, stream_output_rate := some 48000, cached_position := none,
       cached_calls := (0, 0) } : ClientStream).cached_calls.snd = 0 :=
  ⟨rfl, rfl⟩

/-- C7 amended: every `position()` query that RETURNS a value — whether
served by cache extrapolation or by a successful round trip — increments
the total-call counter by exactly one; a query whose round trip fails
returns the error with the stream state (both counters included)
unchanged. -/
theorem position_counter_increment_amended :
    ∀ (s : ClientStream) (now : Nat) (rpc : Except Unit Nat),
      (∀ pos s', s.position now rpc = .ok pos s' →
          s'.cached_calls.snd = s.cached_calls.snd + 1) ∧
      (∀ s', s.position now rpc = .err s' → s' = s) := by
  intro s now rpc
  have hrt : ∀ (calls : Nat × Nat),
      (∀ pos s', s.positionRoundTrip calls now rpc = .ok pos s' →
          s'.cached_calls = calls) ∧
      (∀ s', s.positionRoundTrip calls now rpc = .err s' → s' = s) := by
    intro calls
    cases rpc with
    | error e =>
        constructor
        · intro pos s' h
          simp [ClientStream.positionRoundTrip] at h
        · intro s' h
          simp [ClientStream.positionRoundTrip] at h
          exact h.symm
    | ok p =>
        constructor
        · intro pos s' h
          simp [ClientStream.positionRoundTrip] at h
          rw [← h.2]
        · intro s' h
          simp [ClientStream.positionRoundTrip] at h
  constructor
  · intro pos s' hok
    cases hcache : s.cached_position with
    | none =>
        simp only [ClientStream.position, hcache] at hok
        have := (hrt (s.cached_calls.fst, s.cached_calls.snd + 1)).1 pos s' hok
        rw [this]
    | some pt =>
        obtain ⟨last_pos, last_time⟩ := pt
        by_cases hfresh : now - last_time < positionCacheWindowNs
        · cases hrate : s.stream_output_rate with
          | none => simp [ClientStream.position, hcache, hfresh, hrate] at hok
          | some rate =>
              by_cases hfit :
                  extrapolatedPosition last_pos last_time rate now < u64Modulus
              · simp only [ClientStream.position, hcache, hrate, if_pos hfresh,
                  if_pos hfit, PositionOutcome.ok.injEq] at hok
                rw [← hok.2]
              · simp [ClientStream.position, hcache, hrate, hfresh, hfit] at hok
        · simp only [ClientStream.position, hcache, if_neg hfresh] at hok
          have := (hrt (s.cached_calls.fst, s.cached_calls.snd + 1)).1 pos s' hok
          rw [this]
  · intro s' herr
    cases hcache : s.cached_position with
    | none =>
        simp only [ClientStream.position, hcache] at herr
        exact (hrt (s.cached_calls.fst, s.cached_calls.snd + 1)).2 s' herr
    | some pt =>
        obtain ⟨last_pos, last_time⟩ := pt
        by_cases hfresh : now - last_time < positionCacheWindowNs
        · cases hrate : s.stream_output_rate with
          | none => simp [ClientStream.position, hcache, hfresh, hrate] at herr
          | some rate =>
              by_cases hfit :
                  extrapolatedPosition last_pos last_time rate now < u64Modulus
              · simp [ClientStream.position, hcache, hrate, hfresh, hfit] at herr
              · simp [ClientStream.position, hcache, hrate, hfresh, hfit] at herr
        · simp only [ClientStream.position, hcache, if_neg hfresh] at herr
          exact (hrt (s.cached_calls.fst, s.cached_calls.snd + 1)).2 s' herr

/-- C7 witness: the amended claim at a concrete stream — a successful
round trip at t = 0 takes the total counter from 0 to 1. -/
theorem position_counter_increment_witness :
    ({ token := 1, stream_output_rate := some 48000, cached_position := some (7, 0),
       cached_calls := (0, 1) } : ClientStream).cached_calls.snd =
      ({ token := 1, stream_output_rate := some 48000, cached_position := none,
         cached_calls := (0, 0) } : ClientStream).cached_calls.snd + 1 :=
  (position_counter_increment_amended
      { token := 1, stream_output_rate := some 48000, cached_position := none,
        cached_calls := (0, 0) } 0 (Except.ok 7)).1 7
    { token := 1, stream_output_rate := some 48000, cached_position := some (7, 0),
      cached_calls := (0, 1) } rfl

/-- Helper: evaluation of `ClientStream::position` on the cache-hit path —
a fresh cached pair, a known output rate and a representable extrapolated
value take the early-return branch of stream.rs:315-326. -/
theorem position_hit_eq (s : ClientStream) (last_pos last_time rate now : Nat)
    (rpc : Except Unit Nat)
    (hcache : s.cached_position = some (last_pos, last_time))
    (hrate : s.stream_output_rate = some rate)
    (hfresh : now - last_time < positionCacheWindowNs)
    (hfit : extrapolatedPosition last_pos last_time rate now < u64Modulus) :
    s.position now rpc =
      .ok (extrapolatedPosition last_pos last_time rate now)
        { s with cached_calls := (s.cached_calls.fst + 1, s.cached_calls.snd + 1) } := by
  simp [ClientStream.position, hcache, hrate, hfresh, hfit]

/-- C5: a `position()` call finding a cached pair younger than the 10 ms
window returns the extrapolated `last_position + elapsed_ms × rate / 1000`
and increments the cache-hit counter without performing a round trip (the
result does not depend on the round-trip oracle); otherwise it performs
the `StreamGetPosition` round trip and replaces the cached pair with the
freshly observed `(position, now)`.  The extrapolated value must fit in
`u64` (the `try_into().unwrap()` at stream.rs:325). -/
theorem position_cache_hit_and_miss :
    ∀ (s : ClientStream) (last_pos last_time rate now : Nat) (rpc : Except Unit Nat),
      s.cached_position = some (last_pos, last_time) →
      s.stream_output_rate = some rate →
      ((now - last_time < positionCacheWindowNs →
        extrapolatedPosition last_pos last_time rate now < u64Modulus →
        s.position now rpc =
            .ok (extrapolatedPosition last_pos last_time rate now)
              { s with cached_calls := (s.cached_calls.fst + 1, s.cached_calls.snd + 1) } ∧
          ∀ rpc', s.position now rpc' = s.position now rpc) ∧
       (¬ now - last_time < positionCacheWindowNs →
        ∀ pos, s.position now (Except.ok pos) =
            .ok pos { s with cached_position := some (pos, now)
                             cached_calls := (s.cached_calls.fst, s.cached_calls.snd + 1) })) := by
  intro s last_pos last_time rate now rpc hcache hrate
  constructor
  · intro hfresh hfit
    constructor
    · exact position_hit_eq s last_pos last_time rate now rpc hcache hrate hfresh hfit
    · intro rpc'
      exact (position_hit_eq s last_pos last_time rate now rpc' hcache hrate hfresh
          hfit).trans
        (position_hit_eq s last_pos last_time rate now rpc hcache hrate hfresh hfit).symm
  · intro hstale pos
    simp [ClientStream.position, ClientStream.positionRoundTrip, hcache, hstale]

/-- C5 witness: position 1000 cached at t = 0, rate 48000 Hz.  A call at
5 ms extrapolates 1000 + 5 × 48000 / 1000 = 1240 and bumps the hit
counter; a call at 20 ms replaces the cache with the round-trip result. -/
theorem position_cache_hit_and_miss_witness :
    ClientStream.position
        { token := 1, stream_output_rate := some 48000, cached_position := some (1000, 0),
          cached_calls := (0, 0) } 5000000 (Except.error ()) =
      .ok 1240 { token := 1, stream_output_rate := some 48000,
                 cached_position := some (1000, 0), cached_calls := (1, 1) } ∧
    ClientStream.position
        { token := 1, stream_output_rate := some 48000, cached_position := some (1000, 0),
          cached_calls := (0, 0) } 20000000 (Except.ok 2000) =
      .ok 2000 { token := 1, stream_output_rate := some 48000,
                 cached_position := some (2000, 20000000), cached_calls := (0, 1) } := by
  have h := position_cache_hit_and_miss
    { token := 1, stream_output_rate := some 48000, cached_position := some (1000, 0),
      cached_calls := (0, 0) } 1000 0 48000 5000000 (Except.error ()) rfl rfl
  have h2 := position_cache_hit_and_miss
    { token := 1, stream_output_rate := some 48000, cached_position := some (1000, 0),
      cached_calls := (0, 0) } 1000 0 48000 20000000 (Except.error ()) rfl rfl
  exact ⟨(h.1 (by decide) (by decide)).1, h2.2 (by decide) 2000⟩

/-- C1: in every valid teardown trace — `ValidTeardownTrace` collects the
ordering facts established by `impl Drop for ClientStream`
(stream.rs:278-296), the `mpsc` shutdown channel (stream.rs:56,71,236) and
the callback dispatch discipline — every callback invocation precedes the
return of the stream-destroy path: no callback is observed after the
destroy call returns. -/
theorem stream_destroy_waits_for_callback_server_drop
    (tr : List TeardownEvent) (h : ValidTeardownTrace tr)
    (i j : Fin tr.length)
    (hi : tr.get i = .callbackInvoked) (hj : tr.get j = .dropReturned) :
    i.val < j.val := by
  obtain ⟨-, -, hshut_server, hret_shut, hno_dispatch⟩ := h
  obtain ⟨k, hk, hkev⟩ := hret_shut j hj
  obtain ⟨l, hl, hlev⟩ := hshut_server k hkev
  exact lt_trans (lt_trans (hno_dispatch i l hi hlev) hl) hk

/-- C1 witness: the canonical teardown interleaving — a callback runs,
`StreamDestroy` is sent and acknowledged, the server drops the callback
connection, the shutdown signal is observed, the drop returns — is a valid
trace, and the callback's index precedes the drop-return's index. -/
theorem stream_destroy_waits_witness :
    (⟨0, by decide⟩ : Fin ([TeardownEvent.callbackInvoked, .destroySent, .destroyAcked,
        .serverDropped, .shutdownObserved, .dropReturned] : List TeardownEvent).length).val <
      (⟨5, by decide⟩ : Fin ([TeardownEvent.callbackInvoked, .destroySent, .destroyAcked,
        .serverDropped, .shutdownObserved, .dropReturned] : List TeardownEvent).length).val :=
  stream_destroy_waits_for_callback_server_drop
    [TeardownEvent.callbackInvoked, .destroySent, .destroyAcked,
      .serverDropped, .shutdownObserved, .dropReturned]
    (by decide) ⟨0, by decide⟩ ⟨5, by decide⟩ (by decide) (by decide)

/-- C4: the shared-memory region size is the fixed constant 2,097,152
bytes, and a `Data` callback whose working set exceeds the available
region — `nframes × input_frame_size` beyond the input staging buffer's
capacity, or `nframes × output_frame_size` beyond the mapped region —
makes the `Data` handler panic (capacity assert at stream.rs:102, or
`unwrap` of the failed slice lookup at stream.rs:119/127-131) rather than
silently truncate. -/
theorem shm_fixed_size_and_data_overrun_panics :
    SHM_AREA_SIZE = 2097152 ∧
    ∀ (s : CallbackServer) (shm : SharedMemView) (nframes : Int) (ifs ofs : Nat),
      s.shm = some shm →
      ((∃ cap, s.input = some cap ∧ cap < usize_of_isize nframes * ifs) ∨
        (ofs ≠ 0 ∧ shm.size < usize_of_isize nframes * ofs)) →
      ∃ msg, s.process (.Data nframes ifs ofs) = .panicked msg := by
  constructor
  · rfl
  · intro s shm nframes ifs ofs hshm hover
    rcases hover with ⟨cap, hcap, hlt⟩ | ⟨hofs, hout⟩
    · have hifs : 0 < ifs := by
        rcases Nat.eq_zero_or_pos ifs with h0 | h0
        · subst h0; simp at hlt
        · exact h0
      refine ⟨inputCapacityAssertMsg, ?_⟩
      simp [CallbackServer.process, hshm, hcap, hifs, Nat.not_le.mpr hlt]
    · cases hin : s.input with
      | none =>
          cases hcb : s.data_cb with
          | none =>
              exact ⟨unwrapNoneMsg, by simp [CallbackServer.process, hshm, hin, hcb]⟩
          | some cb =>
              refine ⟨unwrapNoneMsg, ?_⟩
              simp [CallbackServer.process, hshm, hin, hcb, hofs,
                SharedMemView.get_mut_slice, Nat.not_le.mpr hout]
      | some cap =>
          by_cases hifs : 0 < ifs
          · by_cases hcapok : usize_of_isize nframes * ifs ≤ cap
            · cases hcb : s.data_cb with
              | none =>
                  exact ⟨unwrapNoneMsg, by
                    simp [CallbackServer.process, hshm, hin, hifs, hcapok, hcb]⟩
              | some cb =>
                  by_cases hinslice : usize_of_isize nframes * ifs ≤ shm.size
                  · refine ⟨unwrapNoneMsg, ?_⟩
                    simp [CallbackServer.process, hshm, hin, hifs, hcapok, hcb, hofs,
                      SharedMemView.get_slice, SharedMemView.get_mut_slice, hinslice,
                      Nat.not_le.mpr hout]
                  · refine ⟨unwrapNoneMsg, ?_⟩
                    simp [CallbackServer.process, hshm, hin, hifs, hcapok, hcb,
                      SharedMemView.get_slice, hinslice]
            · exact ⟨inputCapacityAssertMsg, by
                simp [CallbackServer.process, hshm, hin, hifs, hcapok]⟩
          · exact ⟨inputFrameSizeAssertMsg, by
              simp [CallbackServer.process, hshm, hin, hifs]⟩

/-- C4 witness: a `Data` request for 1,000,000 frames of 4 bytes
(4,000,000 bytes > 2,097,152) against a fully set-up `CallbackServer`
panics. -/
theorem shm_fixed_size_and_data_overrun_witness :
    SHM_AREA_SIZE = 2097152 ∧
    ∃ msg, CallbackServer.process
        { shm := some (mapSharedMem SHM_AREA_SIZE), input := some SHM_AREA_SIZE,
          data_cb := some (fun n => (n : Int)), state_cb := some (),
          device_change_cb := none }
        (.Data 1000000 4 4) = .panicked msg :=
  ⟨shm_fixed_size_and_data_overrun_panics.1,
   shm_fixed_size_and_data_overrun_panics.2
     { shm := some (mapSharedMem SHM_AREA_SIZE), input := some SHM_AREA_SIZE,
       data_cb := some (fun n => (n : Int)), state_cb := some (),
       device_change_cb := none }
     (mapSharedMem SHM_AREA_SIZE) 1000000 4 4 rfl
     (Or.inl ⟨SHM_AREA_SIZE, rfl, by decide⟩)⟩

/-- Helper: extrapolation is monotone in the query time. -/
theorem extrapolatedPosition_mono (p t r : Nat) {n1 n2 : Nat} (h : n1 ≤ n2) :
    extrapolatedPosition p t r n1 ≤ extrapolatedPosition p t r n2 := by
  unfold extrapolatedPosition
  exact Nat.add_le_add_left
    (Nat.div_le_div_right
      (mul_le_mul_right' (Nat.div_le_div_right (Nat.sub_le_sub_right h t)) r)) p

/-- Helper: within the freshness window the extrapolated value stays below
`last_position + window_ms × rate / 1000` with `window_ms = 10`. -/
theorem extrapolatedPosition_le_window_bound (p t r n : Nat)
    (h : n - t < positionCacheWindowNs) :
    extrapolatedPosition p t r n ≤ p + 10 * r / 1000 := by
  unfold extrapolatedPosition
  have hms : (n - t) / 1000000 < 10 := by
    rw [Nat.div_lt_iff_lt_mul (by norm_num : 0 < 1000000)]
    calc n - t < positionCacheWindowNs := h
      _ = 10 * 1000000 := by norm_num [positionCacheWindowNs]
  exact Nat.add_le_add_left
    (Nat.div_le_div_right (mul_le_mul_right' (Nat.le_of_lt hms) r)) p

/-- C6: a sequence of `position()` queries all served from the cache
within the freshness window of one prior round trip (nondecreasing query
times, each fresh) succeeds with exactly the extrapolated values; the
value sequence is monotonically non-decreasing and each value is at most
`last_position + window_ms × rate / 1000` (`window_ms = 10`).  The bound
`last_position + 10 × rate / 1000 < 2^64` keeps the `u64` conversion of
every extrapolated value from panicking. -/
theorem position_cache_monotone_and_bounded :
    ∀ (times : List Nat) (s : ClientStream) (last_pos last_time rate : Nat)
      (rpc : Except Unit Nat),
      s.cached_position = some (last_pos, last_time) →
      s.stream_output_rate = some rate →
      last_pos + 10 * rate / 1000 < u64Modulus →
      times.Chain' (· ≤ ·) →
      (∀ n ∈ times, n - last_time < positionCacheWindowNs) →
      ∃ sf, positionSeq s times rpc =
          some (times.map (extrapolatedPosition last_pos last_time rate), sf) ∧
        (times.map (extrapolatedPosition last_pos last_time rate)).Chain' (· ≤ ·) ∧
        ∀ v ∈ times.map (extrapolatedPosition last_pos last_time rate),
          v ≤ last_pos + 10 * rate / 1000 := by
  intro times s p t r rpc hc hr hrep hchain hin
  have hmain : ∀ (rest : List Nat) (s0 : ClientStream),
      s0.cached_position = some (p, t) → s0.stream_output_rate = some r →
      (∀ n ∈ rest, n - t < positionCacheWindowNs) →
      ∃ sf, positionSeq s0 rest rpc =
        some (rest.map (extrapolatedPosition p t r), sf) := by
    intro rest
    induction rest with
    | nil => intro s0 hc0 hr0 hin0; exact ⟨s0, rfl⟩
    | cons n tail ih =>
        intro s0 hc0 hr0 hin0
        have hfreshn : n - t < positionCacheWindowNs := hin0 n (List.mem_cons_self n tail)
        have hfit : extrapolatedPosition p t r n < u64Modulus :=
          lt_of_le_of_lt (extrapolatedPosition_le_window_bound p t r n hfreshn) hrep
        have hcall := position_hit_eq s0 p t r n rpc hc0 hr0 hfreshn hfit
        obtain ⟨sf, hseq⟩ := ih
          { s0 with cached_calls := (s0.cached_calls.fst + 1, s0.cached_calls.snd + 1) }
          (by simpa using hc0) (by simpa using hr0)
          (fun m hm => hin0 m (List.mem_cons_of_mem n hm))
        refine ⟨sf, ?_⟩
        simp [positionSeq, hcall, hseq]
  obtain ⟨sf, hseq⟩ := hmain times s hc hr hin
  refine ⟨sf, hseq, ?_, ?_⟩
  · rw [List.chain'_map]
    exact hchain.imp (fun a b hab => extrapolatedPosition_mono p t r hab)
  · intro v hv
    rw [List.mem_map] at hv
    obtain ⟨n, hn, rfl⟩ := hv
    exact extrapolatedPosition_le_window_bound p t r n (hin n hn)

/-- C6 witness: three cached queries at 1 ms, 3 ms and 5 ms after a round
trip that observed position 1000 at t = 0 (rate 48000 Hz) extrapolate to
the non-decreasing, bounded values 1048, 1144, 1240. -/
theorem position_cache_monotone_and_bounded_witness :
    ∃ sf, positionSeq
        { token := 1, stream_output_rate := some 48000,
          cached_position := some (1000, 0), cached_calls := (0, 0) }
        [1000000, 3000000, 5000000] (Except.error ()) =
        some ([1000000, 3000000, 5000000].map (extrapolatedPosition 1000 0 48000), sf) ∧
      ([1000000, 3000000, 5000000].map (extrapolatedPosition 1000 0 48000)).Chain' (· ≤ ·) ∧
      ∀ v ∈ [1000000, 3000000, 5000000].map (extrapolatedPosition 1000 0 48000),
        v ≤ 1000 + 10 * 48000 / 1000 :=
  position_cache_monotone_and_bounded [1000000, 3000000, 5000000]
    { token := 1, stream_output_rate := some 48000,
      cached_position := some (1000, 0), cached_calls := (0, 0) }
    1000 0 48000 (Except.error ()) rfl rfl (by decide)
    (by simp [List.chain'_cons, List.chain'_singleton]) (by decide)

end AudioIPC
